import Mathlib

/-!
Verification of the bootstrap sequencer of the statsd daemon
(`src/cmds/statsd/src/main.cpp`).

The whole core is the single function `main`. We embed it as a pure
function from the responses of its external collaborators (the service
directory, the socket listener, the event-loop pump) to the finite trace
of observable side effects `main` performs, together with the way the
process terminates (or loops forever in the pump).
-/

namespace Statsd

/-- Observable side effects of `main`, one constructor per call site in
`src/cmds/statsd/src/main.cpp`, in source order. -/
inductive Event where
  /-- `Looper::prepare(opts)` (line 50, called with opts = 0). -/
  | looperPrepare (opts : Nat)
  /-- `ProcessState::self()` (line 53). -/
  | acquireProcessState
  /-- `ps->setThreadPoolMaxThreadCount(n)` (line 54, n = 9). -/
  | setThreadPoolMaxThreadCount (n : Nat)
  /-- `ps->startThreadPool()` (line 55). -/
  | startThreadPool
  /-- `ps->giveThreadPoolName()` (line 56). -/
  | giveThreadPoolName
  /-- `IPCThreadState::self()->disableBackgroundScheduling(b)` (line 57, b = true). -/
  | disableBackgroundScheduling (b : Bool)
  /-- `new StatsService(looper)` (line 60). -/
  | constructStatsService
  /-- `defaultServiceManager()->addService(String16(name), service)` (line 61). -/
  | addService (name : String)
  /-- `ALOGE(msg)` (line 62). -/
  | logError (msg : String)
  /-- `service->sayHiToStatsCompanion()` (line 65). -/
  | sayHiToStatsCompanion
  /-- `service->Startup()` (line 67). -/
  | startup
  /-- `new StatsSocketListener(service)` (line 69). -/
  | constructSocketListener
  /-- `ALOGI(msg)` (line 71). -/
  | logInfo (msg : String)
  /-- `socketListener->startListener(backlog)` (line 73, backlog = 600). -/
  | startListener (backlog : Nat)
  /-- Control enters the `while (true)` pump (line 79). -/
  | enterPump
  /-- `ALOGW(msg)` (line 82). -/
  | logWarning (msg : String)
  deriving DecidableEq, Repr

/-- How the process run ends. -/
inductive Outcome where
  /-- `main` returned this code, or `exit(code)` was called. -/
  | exited (code : Int)
  /-- The pump loops forever; the process never terminates on its own. -/
  | looping
  /-- Modelled from the spec: the Event Loop Handle preparation failed and
  the process was terminated with some non-zero status by the (out-of-src)
  Looper implementation. The spec fixes only that the status is non-zero. -/
  | abortedNonzero
  deriving DecidableEq, Repr

/-- `o` is a termination of the process with a non-zero status. -/
def Outcome.terminatedNonzero : Outcome → Prop
  | .exited code => code ≠ 0
  | .looping => False
  | .abortedNonzero => True

instance (o : Outcome) : Decidable o.terminatedNonzero :=
  match o with
  | .exited code => inferInstanceAs (Decidable (code ≠ 0))
  | .looping => inferInstanceAs (Decidable False)
  | .abortedNonzero => inferInstanceAs (Decidable True)

/-- The responses of `main`'s external collaborators, fixed per run
(a mock of the service directory, the listener and the loop). -/
structure Env where
  /-- Whether `Looper::prepare(0)` succeeds. The source performs no check;
  the failure behaviour (termination with a non-zero status) is modelled
  from the spec because the Looper implementation is not under `src/`. -/
  looperPrepareOk : Bool
  /-- The `status_t` returned by `addService(String16("stats"), service)`. -/
  addServiceRet : Int
  /-- The `int` returned by `socketListener->startListener(600)`. -/
  startListenerRet : Int
  /-- Fault injection: whether `looper->pollAll(-1)` ever returns in a way
  that breaks the `while (true)` pump (implementation-defined on some
  platforms per the spec; the source loop condition itself is `true`). -/
  pumpEscapes : Bool
  deriving DecidableEq, Repr

/-- Side effects of `main.cpp` lines 50-61, up to and including the
`addService` call: prepare the looper, configure the binder thread pool,
construct the service, attempt registration. -/
def bootTrace : List Event :=
  [Event.looperPrepare 0,
   Event.acquireProcessState,
   Event.setThreadPoolMaxThreadCount 9,
   Event.startThreadPool,
   Event.giveThreadPoolName,
   Event.disableBackgroundScheduling true,
   Event.constructStatsService,
   Event.addService "stats"]

/-- Trace when `addService` returns non-zero: lines 62-63 log the error
and return -1. -/
def regFailTrace : List Event :=
  bootTrace ++ [Event.logError "Failed to add service"]

/-- Side effects up to and including `startListener(600)` when
registration succeeded: lines 65-73. -/
def startedTrace : List Event :=
  bootTrace ++
  [Event.sayHiToStatsCompanion,
   Event.startup,
   Event.constructSocketListener,
   Event.logInfo "using statsd socket",
   Event.startListener 600]

/-- Side effects when the listener started and the pump is entered
(line 79). -/
def pumpTrace : List Event :=
  startedTrace ++ [Event.enterPump]

/-- Side effects when the pump breaks (fault injection): line 82 logs the
escape warning before line 84 returns 1. -/
def escapeTrace : List Event :=
  pumpTrace ++ [Event.logWarning "statsd escaped from its loop."]

/-- Shallow embedding of `main` from `src/cmds/statsd/src/main.cpp`
(lines 48-85): the finite trace of observable side effects and the
outcome, as functions of the argument vector and the collaborator
responses. The branch chain mirrors the source's early exits in order:
`return -1` when `addService(...) != 0` (lines 61-64), `exit(1)` when
`startListener(600)` returns non-zero (lines 73-75), and the
`while (true)` pump with the dead-code warning/`return 1` after it
(lines 79-85). The `argc`/`argv` parameters are unnamed in the source
(`int /*argc*/, char** /*argv*/`) and never read.

The `looperPrepareOk = false` branch is Modelled from the spec: the
source calls `Looper::prepare(0)` without checking for failure; the
Looper implementation is not under `src/`, and the spec states that a
preparation failure terminates the process with a non-zero status before
any subsequent bootstrap step. -/
def main (_argc : Nat) (_argv : List String) (env : Env) :
    List Event × Outcome :=
  if env.looperPrepareOk = false then
    ([Event.looperPrepare 0], Outcome.abortedNonzero)
  else if env.addServiceRet ≠ 0 then
    (regFailTrace, Outcome.exited (-1))
  else if env.startListenerRet ≠ 0 then
    (startedTrace, Outcome.exited 1)
  else if env.pumpEscapes then
    (escapeTrace, Outcome.exited 1)
  else
    (pumpTrace, Outcome.looping)

/-- Does the character list `needle` match a head segment of `haystack`? -/
def matchesHead : List Char → List Char → Bool
  | [], _ => true
  | _ :: _, [] => false
  | a :: as, b :: bs => a == b && matchesHead as bs

/-- Does the character list `needle` occur contiguously in `haystack`? -/
def occursIn (needle : List Char) : List Char → Bool
  | [] => matchesHead needle []
  | b :: bs => matchesHead needle (b :: bs) || occursIn needle bs

/-- A log message `haystack` mentions `needle` when `needle` occurs in it
as a contiguous substring. -/
def mentions (needle haystack : String) : Bool :=
  occursIn needle.data haystack.data

/-- Exit status as observed by the operating system: `wait` exposes the
low 8 bits of the code passed to `exit` / returned from `main`. -/
def observedExitStatus (code : Int) : Nat :=
  (code % 256).toNat

/-- Mock environment: the happy path. -/
def envHappy : Env := ⟨true, 0, 0, false⟩

/-- Mock environment: the service directory refuses registration. -/
def envRegFail : Env := ⟨true, -1, 0, false⟩

/-- Mock environment: the socket listener fails to start. -/
def envListenFail : Env := ⟨true, 0, -1, false⟩

/-- Mock environment: fault injection makes the pump loop break. -/
def envEscape : Env := ⟨true, 0, 0, true⟩

/-- Mock environment: Looper preparation fails. -/
def envPrepFail : Env := ⟨false, 0, 0, false⟩

/-- Computation rule: when Looper preparation fails, the run stops at the
prepare step with a non-zero termination (spec-modelled branch). -/
theorem main_eq_prepFail (argc : Nat) (argv : List String) (env : Env)
    (hprep : env.looperPrepareOk = false) :
    main argc argv env = ([Event.looperPrepare 0], Outcome.abortedNonzero) := by
  simp [main, hprep]

/-- Computation rule: when registration fails, the run produces
`regFailTrace` and exits -1. -/
theorem main_eq_regFail (argc : Nat) (argv : List String) (env : Env)
    (hprep : env.looperPrepareOk = true) (hreg : env.addServiceRet ≠ 0) :
    main argc argv env = (regFailTrace, Outcome.exited (-1)) := by
  simp [main, hprep, hreg]

/-- Computation rule: when the listener fails to start, the run produces
`startedTrace` and exits 1. -/
theorem main_eq_listenFail (argc : Nat) (argv : List String) (env : Env)
    (hprep : env.looperPrepareOk = true) (hreg : env.addServiceRet = 0)
    (hlisten : env.startListenerRet ≠ 0) :
    main argc argv env = (startedTrace, Outcome.exited 1) := by
  simp [main, hprep, hreg, hlisten]

/-- Computation rule: when everything starts and the pump never breaks,
the run produces `pumpTrace` and loops forever. -/
theorem main_eq_happy (argc : Nat) (argv : List String) (env : Env)
    (hprep : env.looperPrepareOk = true) (hreg : env.addServiceRet = 0)
    (hlisten : env.startListenerRet = 0) (hpump : env.pumpEscapes = false) :
    main argc argv env = (pumpTrace, Outcome.looping) := by
  simp [main, hprep, hreg, hlisten, hpump]

/-- Computation rule: when everything starts but the pump breaks (fault
injection), the run produces `escapeTrace` and exits 1. -/
theorem main_eq_escape (argc : Nat) (argv : List String) (env : Env)
    (hprep : env.looperPrepareOk = true) (hreg : env.addServiceRet = 0)
    (hlisten : env.startListenerRet = 0) (hpump : env.pumpEscapes = true) :
    main argc argv env = (escapeTrace, Outcome.exited 1) := by
  simp [main, hprep, hreg, hlisten, hpump]

/-- Claim C1: in every run where registering the Service Object under
"stats" returns a non-zero status, an error mentioning "service" is
logged, the process exits with status -1, and the companion greeting,
the startup hook, the Socket Ingest construction, and the listener start
are never invoked. -/
theorem statsd_C1 (argc : Nat) (argv : List String) (env : Env)
    (hprep : env.looperPrepareOk = true) (hreg : env.addServiceRet ≠ 0) :
    (main argc argv env).2 = Outcome.exited (-1) ∧
    (∃ msg, Event.logError msg ∈ (main argc argv env).1 ∧
      mentions "service" msg = true) ∧
    Event.sayHiToStatsCompanion ∉ (main argc argv env).1 ∧
    Event.startup ∉ (main argc argv env).1 ∧
    Event.constructSocketListener ∉ (main argc argv env).1 ∧
    ∀ backlog : Nat, Event.startListener backlog ∉ (main argc argv env).1 := by
  rw [main_eq_regFail argc argv env hprep hreg]
  refine ⟨rfl, ⟨"Failed to add service", by decide, by decide⟩,
    by decide, by decide, by decide, ?_⟩
  intro backlog
  simp [regFailTrace, bootTrace]

/-- Concrete instance of `statsd_C1` against the registration-refusal
mock environment. -/
theorem statsd_C1_witness :
    (main 1 [] envRegFail).2 = Outcome.exited (-1) ∧
    (∃ msg, Event.logError msg ∈ (main 1 [] envRegFail).1 ∧
      mentions "service" msg = true) ∧
    Event.sayHiToStatsCompanion ∉ (main 1 [] envRegFail).1 ∧
    Event.startup ∉ (main 1 [] envRegFail).1 ∧
    Event.constructSocketListener ∉ (main 1 [] envRegFail).1 ∧
    ∀ backlog : Nat, Event.startListener backlog ∉ (main 1 [] envRegFail).1 :=
  statsd_C1 1 [] envRegFail rfl (by decide)

/-- Claim C2: when the listener start returns zero, control reaches the
pump; when it returns non-zero, the process exits with status 1 before
the pump, and by then the Service Object had been registered and its
startup hook had run (in that order, before the listener start). -/
theorem statsd_C2 (argc : Nat) (argv : List String) (env : Env)
    (hprep : env.looperPrepareOk = true) (hreg : env.addServiceRet = 0) :
    (env.startListenerRet = 0 → Event.enterPump ∈ (main argc argv env).1) ∧
    (env.startListenerRet ≠ 0 →
      (main argc argv env).2 = Outcome.exited 1 ∧
      Event.enterPump ∉ (main argc argv env).1 ∧
      List.Sublist
        [Event.addService "stats", Event.startup, Event.startListener 600]
        (main argc argv env).1) := by
  constructor
  · intro hlisten
    cases hpump : env.pumpEscapes
    · rw [main_eq_happy argc argv env hprep hreg hlisten hpump]; decide
    · rw [main_eq_escape argc argv env hprep hreg hlisten hpump]; decide
  · intro hlisten
    rw [main_eq_listenFail argc argv env hprep hreg hlisten]
    exact ⟨rfl, by decide, by decide⟩

/-- Concrete instance of `statsd_C2` against the listener-failure mock
environment (the non-zero branch applies). -/
theorem statsd_C2_witness :
    (envListenFail.startListenerRet = 0 →
      Event.enterPump ∈ (main 1 [] envListenFail).1) ∧
    (envListenFail.startListenerRet ≠ 0 →
      (main 1 [] envListenFail).2 = Outcome.exited 1 ∧
      Event.enterPump ∉ (main 1 [] envListenFail).1 ∧
      List.Sublist
        [Event.addService "stats", Event.startup, Event.startListener 600]
        (main 1 [] envListenFail).1) :=
  statsd_C2 1 [] envListenFail rfl rfl

/-- Claim C3: if the poll breaks the pump loop after pump entry, the
process logs a warning mentioning the daemon's name "statsd" after the
pump entry and exits with status 1. -/
theorem statsd_C3 (argc : Nat) (argv : List String) (env : Env)
    (hprep : env.looperPrepareOk = true) (hreg : env.addServiceRet = 0)
    (hlisten : env.startListenerRet = 0) (hpump : env.pumpEscapes = true) :
    (main argc argv env).2 = Outcome.exited 1 ∧
    (∃ msg, mentions "statsd" msg = true ∧
      List.Sublist [Event.enterPump, Event.logWarning msg]
        (main argc argv env).1) := by
  rw [main_eq_escape argc argv env hprep hreg hlisten hpump]
  exact ⟨rfl, ⟨"statsd escaped from its loop.", by decide, by decide⟩⟩

/-- Concrete instance of `statsd_C3` against the pump-escape mock
environment. -/
theorem statsd_C3_witness :
    (main 1 [] envEscape).2 = Outcome.exited 1 ∧
    (∃ msg, mentions "statsd" msg = true ∧
      List.Sublist [Event.enterPump, Event.logWarning msg]
        (main 1 [] envEscape).1) :=
  statsd_C3 1 [] envEscape rfl rfl rfl rfl

/-- Claim C4: in every run where registration succeeds, the companion
greeting is invoked after the registration and before the startup hook;
each of the three events occurs exactly once. -/
theorem statsd_C4 (argc : Nat) (argv : List String) (env : Env)
    (hprep : env.looperPrepareOk = true) (hreg : env.addServiceRet = 0) :
    List.Sublist
      [Event.addService "stats", Event.sayHiToStatsCompanion, Event.startup]
      (main argc argv env).1 ∧
    (main argc argv env).1.count (Event.addService "stats") = 1 ∧
    (main argc argv env).1.count Event.sayHiToStatsCompanion = 1 ∧
    (main argc argv env).1.count Event.startup = 1 := by
  by_cases hlisten : env.startListenerRet = 0
  · cases hpump : env.pumpEscapes
    · rw [main_eq_happy argc argv env hprep hreg hlisten hpump]; decide
    · rw [main_eq_escape argc argv env hprep hreg hlisten hpump]; decide
  · rw [main_eq_listenFail argc argv env hprep hreg hlisten]; decide

/-- Concrete instance of `statsd_C4` against the happy-path mock
environment. -/
theorem statsd_C4_witness :
    List.Sublist
      [Event.addService "stats", Event.sayHiToStatsCompanion, Event.startup]
      (main 1 [] envHappy).1 ∧
    (main 1 [] envHappy).1.count (Event.addService "stats") = 1 ∧
    (main 1 [] envHappy).1.count Event.sayHiToStatsCompanion = 1 ∧
    (main 1 [] envHappy).1.count Event.startup = 1 :=
  statsd_C4 1 [] envHappy rfl rfl

/-- Claim C5: in every run where looper preparation succeeds, the binder
pool cap is set to exactly 9, the pool is started and named, and
background scheduling is disabled, all before the Service Object is
registered; the cap is never set to anything but 9 and background
scheduling is never re-enabled. -/
theorem statsd_C5 (argc : Nat) (argv : List String) (env : Env)
    (hprep : env.looperPrepareOk = true) :
    List.Sublist
      [Event.setThreadPoolMaxThreadCount 9, Event.startThreadPool,
       Event.giveThreadPoolName, Event.disableBackgroundScheduling true,
       Event.addService "stats"]
      (main argc argv env).1 ∧
    (∀ n, Event.setThreadPoolMaxThreadCount n ∈ (main argc argv env).1 →
      n = 9) ∧
    (∀ b, Event.disableBackgroundScheduling b ∈ (main argc argv env).1 →
      b = true) := by
  by_cases hreg : env.addServiceRet = 0
  · by_cases hlisten : env.startListenerRet = 0
    · cases hpump : env.pumpEscapes
      · rw [main_eq_happy argc argv env hprep hreg hlisten hpump]
        refine ⟨by decide, ?_, ?_⟩ <;> intro x hx <;>
          simpa [pumpTrace, startedTrace, bootTrace] using hx
      · rw [main_eq_escape argc argv env hprep hreg hlisten hpump]
        refine ⟨by decide, ?_, ?_⟩ <;> intro x hx <;>
          simpa [escapeTrace, pumpTrace, startedTrace, bootTrace] using hx
    · rw [main_eq_listenFail argc argv env hprep hreg hlisten]
      refine ⟨by decide, ?_, ?_⟩ <;> intro x hx <;>
        simpa [startedTrace, bootTrace] using hx
  · rw [main_eq_regFail argc argv env hprep hreg]
    refine ⟨by decide, ?_, ?_⟩ <;> intro x hx <;>
      simpa [regFailTrace, bootTrace] using hx

/-- Concrete instance of `statsd_C5` against the happy-path mock
environment. -/
theorem statsd_C5_witness :
    List.Sublist
      [Event.setThreadPoolMaxThreadCount 9, Event.startThreadPool,
       Event.giveThreadPoolName, Event.disableBackgroundScheduling true,
       Event.addService "stats"]
      (main 1 [] envHappy).1 ∧
    (∀ n, Event.setThreadPoolMaxThreadCount n ∈ (main 1 [] envHappy).1 →
      n = 9) ∧
    (∀ b, Event.disableBackgroundScheduling b ∈ (main 1 [] envHappy).1 →
      b = true) :=
  statsd_C5 1 [] envHappy rfl

/-- Claim C6: every run that reaches the listener-start step invokes
`startListener` with backlog exactly 600 (and with no other backlog). -/
theorem statsd_C6 (argc : Nat) (argv : List String) (env : Env)
    (hprep : env.looperPrepareOk = true) (hreg : env.addServiceRet = 0) :
    Event.startListener 600 ∈ (main argc argv env).1 ∧
    ∀ backlog, Event.startListener backlog ∈ (main argc argv env).1 →
      backlog = 600 := by
  by_cases hlisten : env.startListenerRet = 0
  · cases hpump : env.pumpEscapes
    · rw [main_eq_happy argc argv env hprep hreg hlisten hpump]
      refine ⟨by decide, ?_⟩
      intro backlog hx
      simpa [pumpTrace, startedTrace, bootTrace] using hx
    · rw [main_eq_escape argc argv env hprep hreg hlisten hpump]
      refine ⟨by decide, ?_⟩
      intro backlog hx
      simpa [escapeTrace, pumpTrace, startedTrace, bootTrace] using hx
  · rw [main_eq_listenFail argc argv env hprep hreg hlisten]
    refine ⟨by decide, ?_⟩
    intro backlog hx
    simpa [startedTrace, bootTrace] using hx

/-- Concrete instance of `statsd_C6` against the happy-path mock
environment. -/
theorem statsd_C6_witness :
    Event.startListener 600 ∈ (main 1 [] envHappy).1 ∧
    ∀ backlog, Event.startListener backlog ∈ (main 1 [] envHappy).1 →
      backlog = 600 :=
  statsd_C6 1 [] envHappy rfl rfl

/-- Claim C7: the bootstrap is deterministic and independent of the
argument vector: for the same collaborator responses, any two argument
vectors (and argument counts) give the identical trace of observable
side effects and the identical outcome. -/
theorem statsd_C7 (argc1 argc2 : Nat) (argv1 argv2 : List String)
    (env : Env) :
    main argc1 argv1 env = main argc2 argv2 env := rfl

/-- Claim C8: no run exits with status 0, and in a run with no injected
failures the pump-entry state is terminal: the outcome is to loop
forever and the last observable side effect is the pump entry. -/
theorem statsd_C8 (argc : Nat) (argv : List String) (env : Env) :
    (main argc argv env).2 ≠ Outcome.exited 0 ∧
    (env.looperPrepareOk = true → env.addServiceRet = 0 →
     env.startListenerRet = 0 → env.pumpEscapes = false →
      (main argc argv env).2 = Outcome.looping ∧
      (main argc argv env).1.getLast? = some Event.enterPump) := by
  constructor
  · cases hprep : env.looperPrepareOk
    · rw [main_eq_prepFail argc argv env hprep]; decide
    · by_cases hreg : env.addServiceRet = 0
      · by_cases hlisten : env.startListenerRet = 0
        · cases hpump : env.pumpEscapes
          · rw [main_eq_happy argc argv env hprep hreg hlisten hpump]; decide
          · rw [main_eq_escape argc argv env hprep hreg hlisten hpump]; decide
        · rw [main_eq_listenFail argc argv env hprep hreg hlisten]; decide
      · rw [main_eq_regFail argc argv env hprep hreg]; decide
  · intro hprep hreg hlisten hpump
    rw [main_eq_happy argc argv env hprep hreg hlisten hpump]
    exact ⟨rfl, by decide⟩

/-- Concrete instance of `statsd_C8` against the happy-path mock
environment, with the no-injected-failure hypotheses discharged. -/
theorem statsd_C8_witness :
    (main 1 [] envHappy).2 ≠ Outcome.exited 0 ∧
    (main 1 [] envHappy).2 = Outcome.looping ∧
    (main 1 [] envHappy).1.getLast? = some Event.enterPump :=
  ⟨(statsd_C8 1 [] envHappy).1, (statsd_C8 1 [] envHappy).2 rfl rfl rfl rfl⟩

/-- Claim C9: if the Event Loop Handle preparation fails, the process
terminates with a non-zero status and no subsequent bootstrap step runs
(the trace holds nothing but the preparation attempt). The failure
branch is modelled from the spec; `Looper::prepare` is not under
`src/`. -/
theorem statsd_C9 (argc : Nat) (argv : List String) (env : Env)
    (hprep : env.looperPrepareOk = false) :
    (main argc argv env).2.terminatedNonzero ∧
    (main argc argv env).1 = [Event.looperPrepare 0] := by
  rw [main_eq_prepFail argc argv env hprep]
  exact ⟨trivial, rfl⟩

/-- Concrete instance of `statsd_C9` against the prepare-failure mock
environment. -/
theorem statsd_C9_witness :
    (main 1 [] envPrepFail).2.terminatedNonzero ∧
    (main 1 [] envPrepFail).1 = [Event.looperPrepare 0] :=
  statsd_C9 1 [] envPrepFail rfl

/-- Claim C10: on registration failure `main` returns the literal -1; at
the process boundary the operating system observes 255 (-1 modulo 256),
so the literal -1 is never an observed status (observed statuses are
non-negative), yet it stays distinct from the listener-failure status
1. -/
theorem statsd_C10 (argc : Nat) (argv : List String) (env : Env)
    (hprep : env.looperPrepareOk = true) (hreg : env.addServiceRet ≠ 0) :
    (main argc argv env).2 = Outcome.exited (-1) ∧
    observedExitStatus (-1) = 255 ∧
    observedExitStatus (-1) ≠ observedExitStatus 1 ∧
    ∀ code : Int, (observedExitStatus code : Int) ≠ -1 := by
  rw [main_eq_regFail argc argv env hprep hreg]
  refine ⟨rfl, by decide, by decide, ?_⟩
  intro code
  have hnn : (0 : Int) ≤ (observedExitStatus code : Int) :=
    Int.natCast_nonneg _
  omega

/-- Concrete instance of `statsd_C10` against the registration-refusal
mock environment. -/
theorem statsd_C10_witness :
    (main 1 [] envRegFail).2 = Outcome.exited (-1) ∧
    observedExitStatus (-1) = 255 ∧
    observedExitStatus (-1) ≠ observedExitStatus 1 ∧
    ∀ code : Int, (observedExitStatus code : Int) ≠ -1 :=
  statsd_C10 1 [] envRegFail rfl (by decide)

end Statsd
